import Mathlib

/-!
Verification development for the texttrack session packet-dispatch and
rendering-loop engine (`RenderSession.cpp` / `RenderSession.h` /
`TextTrackImplementation`).

The embedding translates the dispatch state machine, the packet builder and
the registry operations from the C++ source into executable Lean functions.
Decoder controllers are external polymorphic objects in the source; here a
decoder is identified by a fresh numeric id plus its format tag, and its
opaque behaviour (`wantsData`, `getWaitTime`) is supplied by an environment
of functions.  Calls made into decoder controllers, and construction /
release of controller objects, are recorded as an event trace so that
call-order properties can be stated.
-/

namespace TextTrack

/-- Session format tag, from `RenderSession::SessionType`. -/
inductive SessionType
  | NONE | CC | TTX | DVB | WEBVTT | TTML | SCTE
deriving DecidableEq, Repr

/-- Data submission type, from `RenderSession::DataType`. -/
inductive DataType
  | PES | TTML | CC | WEBVTT
deriving DecidableEq, Repr

/-- Wire packet type, from `subttxrend::protocol::Packet::Type` as used by
`RenderSession::doOnPacketReceived`. -/
inductive PacketType
  | SUBTITLE_SELECTION | TELETEXT_SELECTION | TTML_SELECTION | WEBVTT_SELECTION
  | PES_DATA | TTML_DATA | WEBVTT_DATA | CC_DATA
  | RESET_ALL | RESET_CHANNEL
  | TIMESTAMP | TTML_TIMESTAMP | WEBVTT_TIMESTAMP
  | PAUSE | RESUME | MUTE | UNMUTE
  | TTML_INFO | SET_CC_ATTRIBUTES | INVALID
deriving DecidableEq, Repr

/-- A decoded packet record.  Only the fields the dispatcher inspects are
modelled: the type tag, the subtitle sub-type of a `SUBTITLE_SELECTION`
packet, and the STC/timestamp pair of a `TIMESTAMP` packet.  The payload is
carried opaquely. -/
structure Packet where
  type : PacketType
  subtitlesType : Nat := 0
  stc : Nat := 0
  timestamp : Nat := 0
  payload : List Nat := []
deriving DecidableEq, Repr

/-- Subtitle sub-type constant of `PacketSubtitleSelection`.  The exact
numeric values live in the external `subttxrend` protocol header; only their
distinctness is relevant to the dispatcher, which switches on them. -/
def SUBTITLES_TYPE_DVB : Nat := 0

/-- Subtitle sub-type constant (teletext), see `SUBTITLES_TYPE_DVB`. -/
def SUBTITLES_TYPE_TELETEXT : Nat := 1

/-- Subtitle sub-type constant (SCTE), see `SUBTITLES_TYPE_DVB`. -/
def SUBTITLES_TYPE_SCTE : Nat := 2

/-- Subtitle sub-type constant (closed captions), see `SUBTITLES_TYPE_DVB`. -/
def SUBTITLES_TYPE_CC : Nat := 3

/-- The active decoder controller slot.  The controller object itself is
external; the engine pairs it with the session-type tag.  Here it is
identified by the id it was given at construction plus its format. -/
structure Decoder where
  id : Nat
  format : SessionType
deriving DecidableEq, Repr

/-- Opaque behaviour of the external decoder controllers: the answer a
controller with a given id gives to the `wantsData` query on a reset-channel
packet, and the duration it reports from `getWaitTime`. -/
structure Env where
  wantsData : Nat → Packet → Bool
  waitTime : Nat → Nat

/-- Observable calls into and on behalf of decoder controllers, recorded in
order.  `construct` is the controller constructor, `release` the destruction
of the controller object when the owning pointer drops it, `deactivate` the
`deactivate()` call; the rest are the forwarding calls of the dispatcher. -/
inductive Event
  | construct (id : Nat) (fmt : SessionType)
  | deactivate (id : Nat)
  | release (id : Nat)
  | addData (id : Nat) (p : Packet)
  | muteCall (id : Nat) (flag : Bool)
  | pauseCall (id : Nat)
  | resumeCall (id : Nat)
  | processCall (id : Nat)
  | timestampCall (id : Nat) (p : Packet)
  | infoCall (id : Nat) (p : Packet)
  | setCCAttributesCall (id : Nat) (p : Packet)
  | stcTimestamp (stc : Nat) (ts : Nat)
  | setTextForPreviewCall (id : Nat) (text : String)
deriving DecidableEq, Repr

/-- The dispatch-relevant state of one `RenderSession`: the session-type tag,
the active decoder slot (`mDecoder`), the ingress queue (`mDataQueue`,
holding decoded packets; parsing of raw buffers is the external
`PacketParser`), the CC preview text (`mPreviewText`), and the
instrumentation counter handing out fresh decoder ids. -/
structure SessionState where
  sessionType : SessionType
  decoder : Option Decoder
  dataQueue : List Packet
  previewText : String
  nextId : Nat
deriving DecidableEq, Repr

/-- State of a freshly constructed `RenderSession`: no decoder, empty queue,
session type `NONE`. -/
def initialSession : SessionState :=
  { sessionType := .NONE, decoder := none, dataQueue := [], previewText := "", nextId := 0 }

/-- `RenderSession::processDecoderSelection`.  If a decoder is active it is
deactivated first; then the switch either constructs the new controller for
the selected format and replaces the owned pointer (releasing the old object
after the new one is constructed, per `unique_ptr::reset(new ...)`), or, for
an unknown selection, just drops the owned pointer. -/
def processDecoderSelection (st : SessionState) (p : Packet) :
    SessionState × List Event :=
  let deactEv : List Event := match st.decoder with
    | some d => [.deactivate d.id]
    | none => []
  let relEv : List Event := match st.decoder with
    | some d => [.release d.id]
    | none => []
  let mk : SessionType → SessionState × List Event := fun fmt =>
    ({ st with decoder := some ⟨st.nextId, fmt⟩, sessionType := fmt, nextId := st.nextId + 1 },
      deactEv ++ [.construct st.nextId fmt] ++ relEv)
  match p.type with
  | .SUBTITLE_SELECTION =>
      if p.subtitlesType = SUBTITLES_TYPE_DVB then mk .DVB
      else if p.subtitlesType = SUBTITLES_TYPE_SCTE then mk .SCTE
      else if p.subtitlesType = SUBTITLES_TYPE_CC then mk .CC
      else if p.subtitlesType = SUBTITLES_TYPE_TELETEXT then mk .TTX
      else ({ st with decoder := none }, deactEv ++ relEv)
  | .TELETEXT_SELECTION => mk .TTX
  | .TTML_SELECTION => mk .TTML
  | .WEBVTT_SELECTION => mk .WEBVTT
  | _ => ({ st with decoder := none }, deactEv ++ relEv)

/-- `RenderSession::processDataPacket`: forward to the active decoder via
`addData` when one exists, otherwise do nothing. -/
def processDataPacket (st : SessionState) (p : Packet) : SessionState × List Event :=
  match st.decoder with
  | some d => (st, [.addData d.id p])
  | none => (st, [])

/-- `RenderSession::processResetAll`: only when a decoder is active, clear
the ingress queue, deactivate the decoder and drop it. -/
def processResetAll (st : SessionState) (_p : Packet) : SessionState × List Event :=
  match st.decoder with
  | some d =>
      ({ st with dataQueue := [], decoder := none }, [.deactivate d.id, .release d.id])
  | none => (st, [])

/-- `RenderSession::processResetChannel`: when a decoder is active and its
`wantsData` query answers true for this packet, deactivate and drop it;
otherwise nothing changes. -/
def processResetChannel (env : Env) (st : SessionState) (p : Packet) :
    SessionState × List Event :=
  match st.decoder with
  | some d =>
      if env.wantsData d.id p then
        ({ st with decoder := none }, [.deactivate d.id, .release d.id])
      else (st, [])
  | none => (st, [])

/-- `RenderSession::processMutePacket`: `mute(true)` on the decoder if present. -/
def processMutePacket (st : SessionState) (_p : Packet) : SessionState × List Event :=
  match st.decoder with
  | some d => (st, [.muteCall d.id true])
  | none => (st, [])

/-- `RenderSession::processUnmutePacket`: `mute(false)` on the decoder if present. -/
def processUnmutePacket (st : SessionState) (_p : Packet) : SessionState × List Event :=
  match st.decoder with
  | some d => (st, [.muteCall d.id false])
  | none => (st, [])

/-- `RenderSession::processPause`: `pause()` on the decoder if present. -/
def processPause (st : SessionState) (_p : Packet) : SessionState × List Event :=
  match st.decoder with
  | some d => (st, [.pauseCall d.id])
  | none => (st, [])

/-- `RenderSession::processResume`: `resume()` on the decoder if present. -/
def processResume (st : SessionState) (_p : Packet) : SessionState × List Event :=
  match st.decoder with
  | some d => (st, [.resumeCall d.id])
  | none => (st, [])

/-- `RenderSession::processTtmlTimestamp`: forward to the decoder if present. -/
def processTtmlTimestamp (st : SessionState) (p : Packet) : SessionState × List Event :=
  match st.decoder with
  | some d => (st, [.timestampCall d.id p])
  | none => (st, [])

/-- `RenderSession::processWebvttTimestamp`: forward to the decoder if present. -/
def processWebvttTimestamp (st : SessionState) (p : Packet) : SessionState × List Event :=
  match st.decoder with
  | some d => (st, [.timestampCall d.id p])
  | none => (st, [])

/-- `RenderSession::processTtmlInfo`: forward to the decoder if present. -/
def processTtmlInfo (st : SessionState) (p : Packet) : SessionState × List Event :=
  match st.decoder with
  | some d => (st, [.infoCall d.id p])
  | none => (st, [])

/-- `RenderSession::processSetCCAttributes`: forward only when a decoder is
present and the active format is CC. -/
def processSetCCAttributes (st : SessionState) (p : Packet) : SessionState × List Event :=
  match st.decoder with
  | some d =>
      if st.sessionType = SessionType.CC then (st, [.setCCAttributesCall d.id p])
      else (st, [])
  | none => (st, [])

/-- `RenderSession::doOnPacketReceived`: the dispatch switch on the packet
type.  (The `touchTime()` call updates the wall-clock last-activity
timestamp, which is outside this model.) -/
def doOnPacketReceived (env : Env) (st : SessionState) (p : Packet) :
    SessionState × List Event :=
  match p.type with
  | .SUBTITLE_SELECTION | .TELETEXT_SELECTION | .TTML_SELECTION | .WEBVTT_SELECTION =>
      processDecoderSelection st p
  | .PES_DATA | .TTML_DATA | .WEBVTT_DATA | .CC_DATA => processDataPacket st p
  | .RESET_ALL => processResetAll st p
  | .RESET_CHANNEL => processResetChannel env st p
  | .TIMESTAMP => (st, [.stcTimestamp p.stc p.timestamp])
  | .TTML_TIMESTAMP => processTtmlTimestamp st p
  | .WEBVTT_TIMESTAMP => processWebvttTimestamp st p
  | .PAUSE => processPause st p
  | .RESUME => processResume st p
  | .MUTE => processMutePacket st p
  | .UNMUTE => processUnmutePacket st p
  | .TTML_INFO => processTtmlInfo st p
  | .SET_CC_ATTRIBUTES => processSetCCAttributes st p
  | .INVALID => (st, [])

/-- Dispatch a sequence of packets through `doOnPacketReceived`,
concatenating the event traces in order. -/
def dispatchRun (env : Env) (st : SessionState) : List Packet → SessionState × List Event
  | [] => (st, [])
  | p :: ps =>
      let r1 := doOnPacketReceived env st p
      let r2 := dispatchRun env r1.1 ps
      (r2.1, r1.2 ++ r2.2)

/-- Number of active decoder controllers carried by a session state: the
`mDecoder` slot holds at most one. -/
def activeCount (st : SessionState) : Nat :=
  match st.decoder with
  | some _ => 1
  | none => 0

/-- Well-formedness of an event trace with respect to decoder activation,
starting from `b` active controllers: every `construct` happens while no
controller is active, and every `deactivate` happens while exactly one is.
When this holds from `b = 0`, at most one controller is ever active and the
previously active controller is always deactivated before the next one is
constructed. -/
def traceOk : Nat → List Event → Bool
  | _, [] => true
  | b, .construct _ _ :: tr => b == 0 && traceOk 1 tr
  | b, .deactivate _ :: tr => b == 1 && traceOk 0 tr
  | b, _ :: tr => traceOk b tr

/-- The number of active controllers after a trace, starting from `b`. -/
def endBal : Nat → List Event → Nat
  | b, [] => b
  | _, .construct _ _ :: tr => endBal 1 tr
  | _, .deactivate _ :: tr => endBal 0 tr
  | b, _ :: tr => endBal b tr

theorem traceOk_append (b : Nat) (t1 t2 : List Event) :
    traceOk b (t1 ++ t2) = (traceOk b t1 && traceOk (endBal b t1) t2) := by
  induction t1 generalizing b with
  | nil => simp [traceOk, endBal]
  | cons e tr ih => cases e <;> simp [traceOk, endBal, ih, Bool.and_assoc]

theorem endBal_append (b : Nat) (t1 t2 : List Event) :
    endBal b (t1 ++ t2) = endBal (endBal b t1) t2 := by
  induction t1 generalizing b with
  | nil => rfl
  | cons e tr ih => cases e <;> simp [endBal, ih]

/-- Each single dispatch emits a well-formed trace and leaves the trace
balance equal to the number of decoders held by the resulting state. -/
theorem doOnPacketReceived_traceOk (env : Env) (st : SessionState) (p : Packet) :
    traceOk (activeCount st) (doOnPacketReceived env st p).2 = true ∧
    endBal (activeCount st) (doOnPacketReceived env st p).2 =
      activeCount (doOnPacketReceived env st p).1 := by
  obtain ⟨ty, sub, stc, ts, pl⟩ := p
  cases ty <;> cases hd : st.decoder <;>
    simp [doOnPacketReceived, processDecoderSelection, processDataPacket, processResetAll,
      processResetChannel, processMutePacket, processUnmutePacket, processPause, processResume,
      processTtmlTimestamp, processWebvttTimestamp, processTtmlInfo, processSetCCAttributes,
      activeCount, traceOk, endBal, hd] <;>
    split_ifs <;> simp [traceOk, endBal, activeCount, hd]

/-- A dispatched packet sequence emits a well-formed trace. -/
theorem dispatchRun_traceOk (env : Env) (ps : List Packet) : ∀ st : SessionState,
    traceOk (activeCount st) (dispatchRun env st ps).2 = true ∧
    endBal (activeCount st) (dispatchRun env st ps).2 =
      activeCount (dispatchRun env st ps).1 := by
  induction ps with
  | nil => intro st; simp [dispatchRun, traceOk, endBal]
  | cons p ps ih =>
      intro st
      have h1 := doOnPacketReceived_traceOk env st p
      have h2 := ih (doOnPacketReceived env st p).1
      simp [dispatchRun, traceOk_append, endBal_append, h1.1, h1.2, h2.1, h2.2]

/-- The format a selection packet asks for, read off the selection switch of
`processDecoderSelection` (`none` when the switch falls into a branch that
just drops the decoder). -/
def selectionTarget (p : Packet) : Option SessionType :=
  match p.type with
  | .SUBTITLE_SELECTION =>
      if p.subtitlesType = SUBTITLES_TYPE_DVB then some .DVB
      else if p.subtitlesType = SUBTITLES_TYPE_SCTE then some .SCTE
      else if p.subtitlesType = SUBTITLES_TYPE_CC then some .CC
      else if p.subtitlesType = SUBTITLES_TYPE_TELETEXT then some .TTX
      else none
  | .TELETEXT_SELECTION => some .TTX
  | .TTML_SELECTION => some .TTML
  | .WEBVTT_SELECTION => some .WEBVTT
  | _ => none

/-- Decoder-object bookkeeping following the claim's words: a new controller
may only be constructed once every previously constructed controller object
has been released.  `live` is the list of constructed-but-unreleased ids. -/
def constructedOnlyAfterRelease : List Nat → List Event → Bool
  | _, [] => true
  | live, .construct id _ :: tr => live.isEmpty && constructedOnlyAfterRelease (id :: live) tr
  | live, .release id :: tr => constructedOnlyAfterRelease (live.erase id) tr
  | live, _ :: tr => constructedOnlyAfterRelease live tr

/-- Fixture: an environment whose decoders always answer `wantsData` with
true and report a zero wait time. -/
def envTrue : Env := ⟨fun _ _ => true, fun _ => 0⟩

/-- Fixture: a TTML selection packet. -/
def pSelTtml : Packet := { type := .TTML_SELECTION }

/-- Fixture: a WebVTT selection packet. -/
def pSelWebvtt : Packet := { type := .WEBVTT_SELECTION }

/-- Fixture: a session with an active TTML decoder (id 0). -/
def stTtmlActive : SessionState :=
  { sessionType := .TTML, decoder := some ⟨0, .TTML⟩, dataQueue := [], previewText := "",
    nextId := 1 }

/-- Claim C1, counterexample to the claim as stated: in the run that selects
TTML and then WebVTT, the old decoder is deactivated before the new one is
constructed, but its controller object is released only after the new
controller's construction (`mDecoder.reset(new ...)` evaluates the
constructor argument before dropping the old object), so the
released-before-construction reading of the claim fails on this concrete
run. -/
theorem selection_release_after_construct_cex :
    (dispatchRun envTrue initialSession [pSelTtml, pSelWebvtt]).2 =
      [Event.construct 0 .TTML, Event.deactivate 0, Event.construct 1 .WEBVTT,
        Event.release 0] ∧
    constructedOnlyAfterRelease []
      (dispatchRun envTrue initialSession [pSelTtml, pSelWebvtt]).2 = false :=
  ⟨rfl, rfl⟩

/-- Claim C1 (amended): for every sequence of packets dispatched to a fresh
session, at most one decoder controller is active at any time and on every
selection transition the previously active decoder is deactivated before the
new decoder is constructed (`traceOk`); moreover on a successful selection
with an active decoder the emitted calls are exactly deactivate-old,
construct-new, then release-old — the old controller object is released
after the new one is constructed. -/
theorem selection_exclusive_active_order :
    (∀ (env : Env) (ps : List Packet),
      traceOk 0 (dispatchRun env initialSession ps).2 = true) ∧
    (∀ (st : SessionState) (p : Packet) (d : Decoder) (fmt : SessionType),
      st.decoder = some d → selectionTarget p = some fmt →
      (processDecoderSelection st p).2 =
        [Event.deactivate d.id, Event.construct st.nextId fmt, Event.release d.id]) := by
  constructor
  · intro env ps
    have h := (dispatchRun_traceOk env ps initialSession).1
    simpa [initialSession, activeCount] using h
  · intro st p d fmt hd htgt
    obtain ⟨ty, sub, stc, ts, pl⟩ := p
    cases ty <;>
      simp_all [selectionTarget, processDecoderSelection, hd] <;>
      split_ifs at htgt ⊢ <;> simp_all

/-- Witness for `selection_exclusive_active_order` at a concrete run and a
concrete selection transition. -/
theorem selection_exclusive_active_order_witness :
    traceOk 0 (dispatchRun envTrue initialSession [pSelTtml, pSelWebvtt]).2 = true ∧
    (processDecoderSelection stTtmlActive pSelWebvtt).2 =
      [Event.deactivate 0, Event.construct 1 .WEBVTT, Event.release 0] :=
  ⟨selection_exclusive_active_order.1 envTrue [pSelTtml, pSelWebvtt],
    selection_exclusive_active_order.2 stTtmlActive pSelWebvtt ⟨0, .TTML⟩ .WEBVTT rfl rfl⟩

/-- Fixture: a CC data packet. -/
def pCcData : Packet := { type := .CC_DATA }

/-- Fixture: a reset-all packet. -/
def pResetAll : Packet := { type := .RESET_ALL }

/-- Fixture: a reset-channel packet. -/
def pResetChannel : Packet := { type := .RESET_CHANNEL }

/-- Fixture: a mute packet. -/
def pMute : Packet := { type := .MUTE }

/-- Fixture: a session with no decoder but a non-empty ingress queue (such a
state is reached, e.g., after a reset-channel dropped the decoder while data
was still queued). -/
def stNoDecoderQueued : SessionState :=
  { sessionType := .TTML, decoder := none, dataQueue := [pCcData], previewText := "",
    nextId := 1 }

/-- Claim C3, counterexample to the claim as stated: with a TTML decoder
active, dispatching a CC data packet does call `addData` on the active
decoder — the dispatcher forwards every data packet to the decoder
regardless of format, so the format-mismatch case is not a no-op at the
dispatcher level. -/
theorem dataPacket_format_mismatch_cex :
    stTtmlActive.sessionType = SessionType.TTML ∧
    pCcData.type = PacketType.CC_DATA ∧
    (doOnPacketReceived envTrue stTtmlActive pCcData).2 = [Event.addData 0 pCcData] :=
  ⟨rfl, rfl, rfl⟩

/-- Claim C3 (amended): a dispatched data packet (PES, TTML, WebVTT or CC
data) is forwarded to the active decoder via `addData` exactly when a
decoder exists — otherwise it is dropped — irrespective of whether the
packet's format matches the active format (format filtering is the
decoder's own concern). -/
theorem dataPacket_forward_iff_decoder (env : Env) (st : SessionState) (p : Packet)
    (h : p.type = PacketType.PES_DATA ∨ p.type = PacketType.TTML_DATA ∨
      p.type = PacketType.WEBVTT_DATA ∨ p.type = PacketType.CC_DATA) :
    (∀ d, st.decoder = some d →
      doOnPacketReceived env st p = (st, [Event.addData d.id p])) ∧
    (st.decoder = none → doOnPacketReceived env st p = (st, [])) := by
  obtain ⟨ty, sub, stc, ts, pl⟩ := p
  rcases h with h | h | h | h <;> subst h <;>
    exact ⟨fun d hd => by simp [doOnPacketReceived, processDataPacket, hd],
      fun hd => by simp [doOnPacketReceived, processDataPacket, hd]⟩

/-- Witness for `dataPacket_forward_iff_decoder`: a CC data packet reaches
the active decoder, and is dropped when no decoder is active. -/
theorem dataPacket_forward_iff_decoder_witness :
    doOnPacketReceived envTrue stTtmlActive pCcData = (stTtmlActive, [Event.addData 0 pCcData]) ∧
    doOnPacketReceived envTrue stNoDecoderQueued pCcData = (stNoDecoderQueued, []) :=
  ⟨(dataPacket_forward_iff_decoder envTrue stTtmlActive pCcData (Or.inr (Or.inr (Or.inr rfl)))).1
      ⟨0, .TTML⟩ rfl,
    (dataPacket_forward_iff_decoder envTrue stNoDecoderQueued pCcData
      (Or.inr (Or.inr (Or.inr rfl)))).2 rfl⟩

/-- Claim C4, counterexample to the claim as stated: in a session with no
active decoder but a non-empty ingress queue, a reset-all packet does not
clear the queue — `processResetAll` is guarded on `mDecoder` and does
nothing at all without a decoder. -/
theorem resetAll_no_decoder_cex :
    stNoDecoderQueued.decoder = none ∧
    stNoDecoderQueued.dataQueue = [pCcData] ∧
    doOnPacketReceived envTrue stNoDecoderQueued pResetAll = (stNoDecoderQueued, []) :=
  ⟨rfl, rfl, rfl⟩

/-- Claim C4 (amended): when a decoder is active, a reset-all packet clears
the entire ingress queue and deactivates and drops the decoder, leaving the
session with no active decoder; when no decoder is active, reset-all leaves
the session state unchanged (the render loop clears the queue separately
when no decoder is active). -/
theorem resetAll_with_decoder_clears (env : Env) (st : SessionState) (p : Packet)
    (hp : p.type = PacketType.RESET_ALL) :
    (∀ d, st.decoder = some d →
      doOnPacketReceived env st p =
        ({ st with dataQueue := [], decoder := none },
          [Event.deactivate d.id, Event.release d.id])) ∧
    (st.decoder = none → doOnPacketReceived env st p = (st, [])) := by
  obtain ⟨ty, sub, stc, ts, pl⟩ := p
  subst hp
  exact ⟨fun d hd => by simp [doOnPacketReceived, processResetAll, hd],
    fun hd => by simp [doOnPacketReceived, processResetAll, hd]⟩

/-- Witness for `resetAll_with_decoder_clears` on a session with an active
decoder and a queued packet. -/
theorem resetAll_with_decoder_clears_witness :
    doOnPacketReceived envTrue { stTtmlActive with dataQueue := [pCcData] } pResetAll =
      ({ stTtmlActive with dataQueue := [], decoder := none },
        [Event.deactivate 0, Event.release 0]) ∧
    doOnPacketReceived envTrue stNoDecoderQueued pResetAll = (stNoDecoderQueued, []) :=
  ⟨(resetAll_with_decoder_clears envTrue { stTtmlActive with dataQueue := [pCcData] }
      pResetAll rfl).1 ⟨0, .TTML⟩ rfl,
    (resetAll_with_decoder_clears envTrue stNoDecoderQueued pResetAll rfl).2 rfl⟩

/-- Claim C5: a reset-channel packet deactivates and drops the active
decoder exactly when the decoder's `wantsData` query answers true for that
packet; when the query answers false, or when no decoder is active, the
session state is unchanged and no decoder call is made. -/
theorem resetChannel_iff_wantsData (env : Env) (st : SessionState) (p : Packet)
    (hp : p.type = PacketType.RESET_CHANNEL) :
    (∀ d, st.decoder = some d →
      (env.wantsData d.id p = true →
        doOnPacketReceived env st p =
          ({ st with decoder := none }, [Event.deactivate d.id, Event.release d.id])) ∧
      (env.wantsData d.id p = false → doOnPacketReceived env st p = (st, []))) ∧
    (st.decoder = none → doOnPacketReceived env st p = (st, [])) := by
  obtain ⟨ty, sub, stc, ts, pl⟩ := p
  subst hp
  refine ⟨fun d hd => ⟨fun hw => ?_, fun hw => ?_⟩, fun hd => ?_⟩
  · simp [doOnPacketReceived, processResetChannel, hd, hw]
  · simp [doOnPacketReceived, processResetChannel, hd, hw]
  · simp [doOnPacketReceived, processResetChannel, hd]

/-- Witness for `resetChannel_iff_wantsData`: with an always-true
`wantsData` the decoder is dropped; with no decoder nothing changes. -/
theorem resetChannel_iff_wantsData_witness :
    doOnPacketReceived envTrue stTtmlActive pResetChannel =
      ({ stTtmlActive with decoder := none }, [Event.deactivate 0, Event.release 0]) ∧
    doOnPacketReceived envTrue stNoDecoderQueued pResetChannel = (stNoDecoderQueued, []) :=
  ⟨((resetChannel_iff_wantsData envTrue stTtmlActive pResetChannel rfl).1 ⟨0, .TTML⟩ rfl).1 rfl,
    (resetChannel_iff_wantsData envTrue stNoDecoderQueued pResetChannel rfl).2 rfl⟩

/-- Claim C8: a mute, unmute, pause or resume packet dispatched while no
decoder is active is silently dropped — the session state is unchanged and
no decoder call is made — and a subsequent selection behaves exactly as if
the dropped control had never been dispatched, so the decoder it creates
starts in its own default state.  (The wall-clock last-activity timestamp
updated by every dispatch is outside this model.) -/
theorem control_dropped_without_decoder (env : Env) (st : SessionState) (p sel : Packet)
    (hd : st.decoder = none)
    (hp : p.type = PacketType.MUTE ∨ p.type = PacketType.UNMUTE ∨
      p.type = PacketType.PAUSE ∨ p.type = PacketType.RESUME) :
    doOnPacketReceived env st p = (st, []) ∧
    dispatchRun env st [p, sel] = dispatchRun env st [sel] := by
  have h1 : doOnPacketReceived env st p = (st, []) := by
    obtain ⟨ty, sub, stc, ts, pl⟩ := p
    rcases hp with h | h | h | h <;> subst h <;>
      simp [doOnPacketReceived, processMutePacket, processUnmutePacket, processPause,
        processResume, hd]
  exact ⟨h1, by simp [dispatchRun, h1]⟩

/-- Witness for `control_dropped_without_decoder`: a mute with no decoder is
dropped and a following TTML selection is unaffected by it. -/
theorem control_dropped_without_decoder_witness :
    doOnPacketReceived envTrue stNoDecoderQueued pMute = (stNoDecoderQueued, []) ∧
    dispatchRun envTrue stNoDecoderQueued [pMute, pSelTtml] =
      dispatchRun envTrue stNoDecoderQueued [pSelTtml] :=
  control_dropped_without_decoder envTrue stNoDecoderQueued pMute pSelTtml rfl (Or.inl rfl)

/-- The drain loop at the head of `RenderSession::processData`: while the
ingress queue is non-empty, pop the front buffer, decode it (the parser is
external; the queue here already holds decoded packets) and dispatch it.
The recursion is bounded by explicit fuel; dispatching never enqueues, so a
fuel of the initial queue length suffices. -/
def drainQueue (env : Env) : Nat → SessionState → SessionState × List Event
  | 0, st => (st, [])
  | fuel + 1, st =>
      match st.dataQueue with
      | [] => (st, [])
      | p :: rest =>
          let st1 := { st with dataQueue := rest }
          let r1 := doOnPacketReceived env st1 p
          let r2 := drainQueue env fuel r1.1
          (r2.1, r1.2 ++ r2.2)

/-- `RenderSession::processData`: drain the entire ingress queue, then — if
a decoder is active — invoke its `process()` step and return its reported
wait time; with no decoder the returned wait time is zero. -/
def processDataStep (env : Env) (st : SessionState) : SessionState × List Event × Nat :=
  let r := drainQueue env st.dataQueue.length st
  match r.1.decoder with
  | some d => (r.1, r.2 ++ [.processCall d.id], env.waitTime d.id)
  | none => (r.1, r.2, 0)

/-- The inner `while` of `RenderSession::processLoop`, observed for at most
`fuel` iterations.  Each iteration runs `processData` and flushes the
graphics engine (external); then, when the reported wait time is zero, the
loop `break`s, otherwise it sleeps up to that duration and iterates.
`quit` is the `mQuitRenderThread` flag; in this single-thread model it does
not change while the loop runs and no new data arrives during a sleep. -/
def processLoopInner (env : Env) : Nat → Bool → SessionState → SessionState × List Event
  | 0, _, st => (st, [])
  | fuel + 1, quit, st =>
      if quit = false ∧ st.decoder.isSome then
        let r := processDataStep env st
        if r.2.2 = 0 then (r.1, r.2.1)
        else
          let r2 := processLoopInner env fuel quit r.1
          (r2.1, r.2.1 ++ r2.2)
      else (st, [])

/-- One iteration of the outer loop body of `RenderSession::processLoop`:
run the inner while loop, then clear the ingress queue.  In the source the
clear is written after the inner loop and executes on every outer iteration,
whatever made the inner loop exit. -/
def processLoopOuterBody (env : Env) (fuel : Nat) (quit : Bool) (st : SessionState) :
    SessionState × List Event :=
  let r := processLoopInner env fuel quit st
  ({ r.1 with dataQueue := [] }, r.2)

/-- Whether an event is a decoder `process()` call. -/
def isProcessCall : Event → Bool
  | .processCall _ => true
  | _ => false

/-- Claim C6, counterexample to the claim as stated: with an active decoder
reporting a zero wait time and shutdown not requested, the inner loop
performs exactly one drain-process pass and then exits — it does not
iterate again — and the queue-clear at the end of the outer iteration runs
even while a decoder is active (shown here with `quit = true` and a queued
packet: the queue is cleared although the decoder is still present). -/
theorem processLoop_zero_wait_cex :
    stTtmlActive.decoder.isSome = true ∧
    (processDataStep envTrue stTtmlActive).2.2 = 0 ∧
    ((processLoopInner envTrue 5 false stTtmlActive).2.countP isProcessCall = 1 ∧ 1 < 5) ∧
    (({ stTtmlActive with dataQueue := [pCcData] } : SessionState).decoder.isSome = true ∧
      (processLoopOuterBody envTrue 5 true
        { stTtmlActive with dataQueue := [pCcData] }).1.dataQueue = [] ∧
      (processLoopOuterBody envTrue 5 true
        { stTtmlActive with dataQueue := [pCcData] }).1.decoder.isSome = true) :=
  ⟨rfl, rfl, ⟨rfl, by decide⟩, rfl, rfl, rfl⟩

/-- Claim C6 (amended): in the render-thread loop, a processing pass that
reports a zero wait time makes the inner loop exit immediately after that
single pass (whether or not a decoder is active and shutdown requested or
not), returning to the outer wait; and the ingress queue is cleared at the
end of every outer-loop iteration, regardless of whether a decoder is
active.  Only a nonzero wait time makes the inner loop iterate again. -/
theorem processLoop_zero_wait_exits (env : Env) (fuel : Nat) (st : SessionState)
    (quit : Bool) (hq : quit = false) (hd : st.decoder.isSome = true)
    (hw : (processDataStep env st).2.2 = 0) :
    processLoopInner env (fuel + 1) quit st =
      ((processDataStep env st).1, (processDataStep env st).2.1) ∧
    (processLoopOuterBody env fuel quit st).1.dataQueue = [] := by
  subst hq
  constructor
  · simp [processLoopInner, hd, hw]
  · simp [processLoopOuterBody]

/-- Witness for `processLoop_zero_wait_exits` on a concrete session whose
decoder reports a zero wait time. -/
theorem processLoop_zero_wait_exits_witness :
    processLoopInner envTrue 5 false stTtmlActive =
      ((processDataStep envTrue stTtmlActive).1,
        (processDataStep envTrue stTtmlActive).2.1) ∧
    (processLoopOuterBody envTrue 4 false stTtmlActive).1.dataQueue = [] :=
  processLoop_zero_wait_exits envTrue 4 stTtmlActive false rfl rfl rfl

/-- Little-endian byte serialization of a 32-bit word: the source appends
the four bytes of a `uint32_t` through `reinterpret_cast<char *>` on a
little-endian target. -/
def u32LE (v : Nat) : List Nat :=
  [v % 256, v / 256 % 256, v / 65536 % 256, v / 16777216 % 256]

/-- Read back the 32-bit little-endian word at byte offset `off`. -/
def readU32 (b : List Nat) (off : Nat) : Nat :=
  b.getD off 0 + 256 * b.getD (off + 1) 0 + 65536 * b.getD (off + 2) 0 +
    16777216 * b.getD (off + 3) 0

/-- Overwrite the four bytes at byte offset `off` with the little-endian
encoding of `v`: the source stores through a `uint32_t` pointer into the
buffer. -/
def setU32At (off : Nat) (v : Nat) (b : List Nat) : List Nat :=
  b.take off ++ u32LE v ++ b.drop (off + 4)

/-- Numeric wire code of a packet type.  The concrete values are fixed in
the external `subttxrend` protocol header; the properties below depend only
on each type having a fixed code, so representative values are used. -/
def packetTypeCode : PacketType → Nat
  | .INVALID => 0
  | .SUBTITLE_SELECTION => 1
  | .TELETEXT_SELECTION => 2
  | .TTML_SELECTION => 3
  | .WEBVTT_SELECTION => 4
  | .PES_DATA => 5
  | .TTML_DATA => 6
  | .WEBVTT_DATA => 7
  | .CC_DATA => 8
  | .RESET_ALL => 9
  | .RESET_CHANNEL => 10
  | .TIMESTAMP => 11
  | .TTML_TIMESTAMP => 12
  | .WEBVTT_TIMESTAMP => 13
  | .PAUSE => 14
  | .RESUME => 15
  | .MUTE => 16
  | .UNMUTE => 17
  | .TTML_INFO => 18
  | .SET_CC_ATTRIBUTES => 19

/-- The `BuildPacket` helper of `RenderSession.cpp`: a growing byte buffer. -/
structure BuildPacket where
  pBuffer : List Nat
deriving DecidableEq, Repr

/-- The `BuildPacket` constructor: append the type word, the incremented
shared counter (`counter` stands for the value `++sCounter` produced), a
zero placeholder, and the word 1. -/
def BuildPacket.init (type : Nat) (counter : Nat) : BuildPacket :=
  ⟨u32LE type ++ u32LE counter ++ u32LE 0 ++ u32LE 1⟩

/-- `BuildPacket::operator()(uint32_t v)`: append one 32-bit word. -/
def BuildPacket.app (bp : BuildPacket) (v : Nat) : BuildPacket :=
  ⟨bp.pBuffer ++ u32LE v⟩

/-- `BuildPacket::type`: patch the word at offset 0, guarded on the buffer
being at least 4 bytes. -/
def BuildPacket.setType (bp : BuildPacket) (t : Nat) : BuildPacket :=
  if 4 ≤ bp.pBuffer.length then ⟨setU32At 0 t bp.pBuffer⟩ else bp

/-- Raw data bytes appended after the fields
(`std::copy(data.begin(), data.end(), std::back_inserter(*bp.pBuffer))`);
each byte of the `char` buffer is taken modulo 256. -/
def BuildPacket.appendData (bp : BuildPacket) (data : List Nat) : BuildPacket :=
  ⟨bp.pBuffer ++ data.map (· % 256)⟩

/-- `BuildPacket::done` (run by the conversion operator before the buffer is
handed on): patch the word at byte offset 8 with `size - 12`, guarded on the
buffer being at least 12 bytes. -/
def BuildPacket.done (bp : BuildPacket) : List Nat :=
  if 12 ≤ bp.pBuffer.length then setU32At 8 (bp.pBuffer.length - 12) bp.pBuffer
  else bp.pBuffer

/-- The unsigned 64-bit two's-complement bit pattern of a signed value, as
carried by `int64_t` on the wire. -/
def toUInt64 (i : Int) : Nat := (i % (18446744073709551616 : Int)).toNat

/-- Signed reading of a 64-bit two's-complement bit pattern. -/
def fromUInt64 (u : Nat) : Int :=
  if u < 9223372036854775808 then (u : Int) else (u : Int) - 18446744073709551616

/-- `RenderSession::sendData`: build the data packet for the given type;
`counter` stands for the incremented shared sequence counter.  For TTML the
signed display offset is appended as-is as two 32-bit words, low word first
(`offsetMs & UINT32_MAX` then `offsetMs >> 32`, i.e. `% 2^32` and `/ 2^32`
on the two's-complement bit pattern); for WebVTT the offset is negated
first (`offsetMs = -offsetMs`).  PES appends a zero channel-type word; CC
appends channel type 3 and two zero PTS words. -/
def sendData (counter : Nat) (type : DataType) (data : List Nat) (offsetMs : Int) :
    List Nat :=
  let bp := BuildPacket.init (packetTypeCode .INVALID) counter
  match type with
  | .PES => (((bp.setType (packetTypeCode .PES_DATA)).app 0).appendData data).done
  | .TTML =>
      let o := toUInt64 offsetMs
      ((((bp.setType (packetTypeCode .TTML_DATA)).app (o % 4294967296)).app
          (o / 4294967296)).appendData data).done
  | .WEBVTT =>
      let o := toUInt64 (-offsetMs)
      ((((bp.setType (packetTypeCode .WEBVTT_DATA)).app (o % 4294967296)).app
          (o / 4294967296)).appendData data).done
  | .CC =>
      (((((bp.setType (packetTypeCode .CC_DATA)).app 3).app 0).app 0).appendData data).done

/-- A packet the way every sender in `RenderSession` builds one: construct
`BuildPacket` with a type word and the shared counter, append 32-bit field
words, append raw data bytes, finish with `done`. -/
def buildGeneric (t : Nat) (counter : Nat) (fields : List Nat) (data : List Nat) :
    List Nat :=
  ((fields.foldl BuildPacket.app (BuildPacket.init t counter)).appendData data).done

/-- Patching the type word of a freshly constructed `BuildPacket` equals
constructing it with that type directly (`sendData` constructs with
`INVALID` and then patches). -/
theorem BuildPacket_setType_init (a t counter : Nat) :
    (BuildPacket.init a counter).setType t = BuildPacket.init t counter := rfl

theorem foldl_app_pBuffer (fields : List Nat) (bp : BuildPacket) :
    (fields.foldl BuildPacket.app bp).pBuffer = bp.pBuffer ++ (fields.map u32LE).flatten := by
  induction fields generalizing bp with
  | nil => simp
  | cons f fs ih => simp [List.foldl_cons, ih, BuildPacket.app, List.append_assoc]

theorem flatten_u32LE_length (fields : List Nat) :
    ((fields.map u32LE).flatten).length = 4 * fields.length := by
  induction fields with
  | nil => simp
  | cons f fs ih => simp [u32LE, ih]; omega

/-- `done` on a buffer of four words followed by a remainder patches the
third word with `4 + R.length` (which is `size - 12`). -/
theorem done_quad (a b c d : Nat) (R : List Nat) :
    BuildPacket.done ⟨u32LE a ++ u32LE b ++ u32LE c ++ u32LE d ++ R⟩ =
      u32LE a ++ u32LE b ++ u32LE (4 + R.length) ++ u32LE d ++ R := by
  have hlen : (u32LE a ++ u32LE b ++ u32LE c ++ u32LE d ++ R).length = 16 + R.length := by
    simp [u32LE]; omega
  have hquad : ∀ v : Nat, setU32At 8 v (u32LE a ++ u32LE b ++ u32LE c ++ u32LE d ++ R) =
      u32LE a ++ u32LE b ++ u32LE v ++ u32LE d ++ R := fun v => rfl
  simp only [BuildPacket.done, hlen]
  rw [if_pos (by omega), hquad]
  have h4 : 16 + R.length - 12 = 4 + R.length := by omega
  rw [h4]

/-- The byte-wise little-endian decomposition of the word at byte offset 8
recomposes to the word modulo `2^32`. -/
theorem readU32_at8 (a b c : Nat) (S : List Nat) :
    readU32 (u32LE a ++ u32LE b ++ u32LE c ++ S) 8 = c % 4294967296 := by
  show c % 256 + 256 * (c / 256 % 256) + 65536 * (c / 65536 % 256) +
      16777216 * (c / 16777216 % 256) = c % 4294967296
  omega

/-- Every buffer built by `BuildPacket` decomposes as a 12-byte header of
`type`, `sequence` and the patched length word, followed by the payload
(whose first word is the constant 1 appended by the constructor). -/
theorem buildGeneric_eq (t counter : Nat) (fields data : List Nat) :
    buildGeneric t counter fields data =
      u32LE t ++ u32LE counter ++
        u32LE (4 + ((fields.map u32LE).flatten ++ data.map (· % 256)).length) ++
        (u32LE 1 ++ ((fields.map u32LE).flatten ++ data.map (· % 256))) := by
  show BuildPacket.done
      ⟨(fields.foldl BuildPacket.app (BuildPacket.init t counter)).pBuffer ++
        data.map (· % 256)⟩ = _
  rw [foldl_app_pBuffer]
  show BuildPacket.done
      ⟨u32LE t ++ u32LE counter ++ u32LE 0 ++ u32LE 1 ++
        ((fields.map u32LE).flatten ++ data.map (· % 256))⟩ = _
  rw [done_quad]
  simp [List.append_assoc]

theorem fromUInt64_toUInt64 (i : Int) (h1 : -9223372036854775808 ≤ i)
    (h2 : i < 9223372036854775808) : fromUInt64 (toUInt64 i) = i := by
  unfold toUInt64 fromUInt64
  split_ifs <;> omega

/-- The two words appended for the display offset sit at byte offsets 16 and
20, right after the 12-byte header and the constructor's word 1. -/
theorem drop16_take8 (a b c d e f : Nat) (R : List Nat) :
    ((u32LE a ++ u32LE b ++ u32LE c ++ u32LE d ++ (u32LE e ++ u32LE f ++ R)).drop 16).take 8 =
      u32LE e ++ u32LE f := rfl

/-- The offset words of a TTML or WebVTT data packet, as laid down by
`sendData`: bytes 16 to 23 of the built buffer. -/
theorem sendData_offset_words (counter : Nat) (data : List Nat) (offsetMs : Int) :
    ((sendData counter DataType.WEBVTT data offsetMs).drop 16).take 8 =
      u32LE (toUInt64 (-offsetMs) % 4294967296) ++ u32LE (toUInt64 (-offsetMs) / 4294967296) ∧
    ((sendData counter DataType.TTML data offsetMs).drop 16).take 8 =
      u32LE (toUInt64 offsetMs % 4294967296) ++ u32LE (toUInt64 offsetMs / 4294967296) := by
  constructor
  · show ((BuildPacket.done
        ⟨u32LE (packetTypeCode .WEBVTT_DATA) ++ u32LE counter ++ u32LE 0 ++ u32LE 1 ++
          (u32LE (toUInt64 (-offsetMs) % 4294967296) ++
            u32LE (toUInt64 (-offsetMs) / 4294967296) ++ data.map (· % 256))⟩).drop 16).take 8 = _
    rw [done_quad, drop16_take8]
  · show ((BuildPacket.done
        ⟨u32LE (packetTypeCode .TTML_DATA) ++ u32LE counter ++ u32LE 0 ++ u32LE 1 ++
          (u32LE (toUInt64 offsetMs % 4294967296) ++
            u32LE (toUInt64 offsetMs / 4294967296) ++ data.map (· % 256))⟩).drop 16).take 8 = _
    rw [done_quad, drop16_take8]

/-- Claim C2: `sendData` encodes the negation of the caller-supplied signed
millisecond offset for WebVTT and the offset unchanged for TTML, in both
cases as a 64-bit two's-complement value split into two 32-bit little-endian
words, low word first (at bytes 16 to 23 of the packet).  The signed reading
of the encoded 64-bit pattern is `-offsetMs` for WebVTT and `offsetMs` for
TTML whenever the value is representable in 64 bits. -/
theorem sendData_offset_encoding (counter : Nat) (data : List Nat) (offsetMs : Int)
    (h1 : -9223372036854775808 < offsetMs) (h2 : offsetMs < 9223372036854775808) :
    ((sendData counter DataType.WEBVTT data offsetMs).drop 16).take 8 =
      u32LE (toUInt64 (-offsetMs) % 4294967296) ++
        u32LE (toUInt64 (-offsetMs) / 4294967296) ∧
    fromUInt64 (toUInt64 (-offsetMs)) = -offsetMs ∧
    ((sendData counter DataType.TTML data offsetMs).drop 16).take 8 =
      u32LE (toUInt64 offsetMs % 4294967296) ++ u32LE (toUInt64 offsetMs / 4294967296) ∧
    fromUInt64 (toUInt64 offsetMs) = offsetMs :=
  ⟨(sendData_offset_words counter data offsetMs).1,
    fromUInt64_toUInt64 (-offsetMs) (by omega) (by omega),
    (sendData_offset_words counter data offsetMs).2,
    fromUInt64_toUInt64 offsetMs (by omega) (by omega)⟩

/-- Witness for `sendData_offset_encoding` at `offsetMs = 3000`: the WebVTT
payload carries the pattern of `-3000`, the TTML payload that of `3000`. -/
theorem sendData_offset_encoding_witness :
    ((sendData 1 DataType.WEBVTT [] 3000).drop 16).take 8 =
      u32LE (toUInt64 (-3000) % 4294967296) ++ u32LE (toUInt64 (-3000) / 4294967296) ∧
    fromUInt64 (toUInt64 (-3000)) = -3000 ∧
    ((sendData 1 DataType.TTML [] 3000).drop 16).take 8 =
      u32LE (toUInt64 3000 % 4294967296) ++ u32LE (toUInt64 3000 / 4294967296) ∧
    fromUInt64 (toUInt64 3000) = 3000 :=
  sendData_offset_encoding 1 [] 3000 (by norm_num) (by norm_num)

/-- The spec's reading of the header: four 32-bit words
`type, sequence, reserved, payloadLength` (a 16-byte prefix) with the
`payloadLength` field at byte offset 12 equal to the length of the bytes
that follow it. -/
def specHeaderPayloadLengthOk (b : List Nat) : Bool :=
    readU32 b 12 == b.length - 16

/-- Claim C7, counterexample to the claim as stated: for the packet built by
`RenderSession::pause()` (no extra fields), the word at byte offset 12 is
the constant 1, not the payload length 0 that the claimed
`type, sequence, reserved, payloadLength` 16-byte layout would put there;
the length field actually patched in is the word at byte offset 8, which
holds `size - 12 = 4`. -/
theorem buildPacket_spec_layout_cex :
    specHeaderPayloadLengthOk (buildGeneric (packetTypeCode PacketType.PAUSE) 7 [] []) =
      false ∧
    readU32 (buildGeneric (packetTypeCode PacketType.PAUSE) 7 [] []) 12 = 1 ∧
    readU32 (buildGeneric (packetTypeCode PacketType.PAUSE) 7 [] []) 8 = 4 ∧
    (buildGeneric (packetTypeCode PacketType.PAUSE) 7 [] []).length = 16 :=
  ⟨rfl, rfl, rfl, rfl⟩

/-- Claim C7 (amended): every buffer produced by the packet builder begins
with a fixed 12-byte header laid out as `type:u32, sequence:u32,
payloadLength:u32` in little-endian order, followed by the payload, whose
first 32-bit word is the constant 1 appended at construction; the
payload-length word (at byte offset 8) is patched in after all fields are
appended and satisfies `payloadLength = len(payload)` for the payload that
starts at byte offset 12. -/
theorem buildPacket_layout (t counter : Nat) (fields data : List Nat) :
    buildGeneric t counter fields data =
      u32LE t ++ u32LE counter ++
        u32LE ((buildGeneric t counter fields data).drop 12).length ++
        (buildGeneric t counter fields data).drop 12 ∧
    readU32 (buildGeneric t counter fields data) 8 =
      ((buildGeneric t counter fields data).drop 12).length % 4294967296 ∧
    ((buildGeneric t counter fields data).drop 12).take 4 = u32LE 1 := by
  have he := buildGeneric_eq t counter fields data
  have hdrop : (buildGeneric t counter fields data).drop 12 =
      u32LE 1 ++ ((fields.map u32LE).flatten ++ data.map (· % 256)) := by
    rw [he]; rfl
  have hlen : ((buildGeneric t counter fields data).drop 12).length =
      4 + ((fields.map u32LE).flatten ++ data.map (· % 256)).length := by
    rw [hdrop]; simp [u32LE]; omega
  refine ⟨?_, ?_, ?_⟩
  · rw [hlen, hdrop, he]
  · rw [hlen, he, readU32_at8]
  · rw [hdrop]; rfl

/-- The `Core::hresult` values returned by `TextTrackImplementation`
(numeric values live in the external Thunder framework; only distinctness
matters here). -/
inductive Hresult
  | ERROR_NONE | ERROR_GENERAL | ERROR_NOT_SUPPORTED
deriving DecidableEq, Repr

/-- Registry-visible state of one `RenderSession`: its display name, the
`mStarted` lifecycle flag, and the dispatch-level state. -/
structure RenderSessionState where
  displayName : String
  started : Bool
  core : SessionState
deriving DecidableEq, Repr

/-- `RenderSession::start` as far as the lifecycle flag is concerned: a
guarded no-op when already started (window, socket and thread creation are
external resources). -/
def startSession (s : RenderSessionState) : RenderSessionState :=
  if s.started then s else { s with started := true }

/-- A `RenderSession` as constructed by `OpenSession` (the constructor does
not start the session). -/
def freshRenderSession (displayName : String) : RenderSessionState :=
  { displayName := displayName, started := false, core := initialSession }

/-- `TextTrackImplementation` registry state: `mSessions` (a `std::map`
whose keys are handed out in increasing order, modelled as an association
list in key order) and the `mSessionNumber` counter. -/
structure ImplState where
  sessions : List (Nat × RenderSessionState)
  sessionNumber : Nat
deriving DecidableEq, Repr

/-- Replace the value stored under key `k` in the session map. -/
def updateAssoc (l : List (Nat × RenderSessionState)) (k : Nat) (v : RenderSessionState) :
    List (Nat × RenderSessionState) :=
  l.map fun kv => if kv.1 = k then (k, v) else kv

/-- `RenderSession::setTextForClosedCaptionPreview`: store the preview text,
and forward it to the decoder when one is present and the session type is
CC. -/
def setTextForClosedCaptionPreview (s : SessionState) (text : String) :
    SessionState × List Event :=
  let s1 := { s with previewText := text }
  match s.decoder with
  | some d =>
      if s.sessionType = SessionType.CC then (s1, [.setTextForPreviewCall d.id text])
      else (s1, [])
  | none => (s1, [])

/-- `TextTrackImplementation::SetPreviewText`: unknown session identifiers
give `ERROR_GENERAL`; sessions whose type is not CC give
`ERROR_NOT_SUPPORTED`; CC sessions get the preview text forwarded and give
`ERROR_NONE`.  (The `touchTime()` call is outside the model.) -/
def SetPreviewText (impl : ImplState) (sessionId : Nat) (text : String) :
    ImplState × List Event × Hresult :=
  match impl.sessions.lookup sessionId with
  | none => (impl, [], .ERROR_GENERAL)
  | some ses =>
      if ses.core.sessionType = SessionType.CC then
        let r := setTextForClosedCaptionPreview ses.core text
        ({ impl with
            sessions := updateAssoc impl.sessions sessionId { ses with core := r.1 } },
          r.2, .ERROR_NONE)
      else (impl, [], .ERROR_NOT_SUPPORTED)

/-- `TextTrackImplementation::OpenSession`: an empty display name fails; a
display name with an existing session returns that session's identifier and
(re)starts it; otherwise a fresh identifier `++mSessionNumber` is allocated
and a new started session is added under it. -/
def OpenSession (impl : ImplState) (displayName : String) :
    ImplState × Hresult × Option Nat :=
  if displayName = "" then (impl, .ERROR_GENERAL, none)
  else
    match impl.sessions.find? (fun kv => kv.2.displayName == displayName) with
    | some kv =>
        ({ impl with sessions := updateAssoc impl.sessions kv.1 (startSession kv.2) },
          .ERROR_NONE, some kv.1)
    | none =>
        let newId := impl.sessionNumber + 1
        ({ sessions := impl.sessions ++
            [(newId, startSession (freshRenderSession displayName))],
           sessionNumber := newId },
          .ERROR_NONE, some newId)

theorem updateAssoc_cons (k1 : Nat) (v1 : RenderSessionState)
    (rest : List (Nat × RenderSessionState)) (k : Nat) (v : RenderSessionState) :
    updateAssoc ((k1, v1) :: rest) k v =
      (if k1 = k then (k, v) else (k1, v1)) :: updateAssoc rest k v := rfl

theorem lookup_updateAssoc (l : List (Nat × RenderSessionState)) (k : Nat)
    (v : RenderSessionState) (hk : (l.lookup k).isSome = true) :
    (updateAssoc l k v).lookup k = some v := by
  induction l with
  | nil => simp [List.lookup] at hk
  | cons kv rest ih =>
      obtain ⟨k1, v1⟩ := kv
      rw [updateAssoc_cons]
      by_cases h : k1 = k
      · subst h
        rw [if_pos rfl]
        simp [List.lookup]
      · have hbeq : (k == k1) = false := by simp; omega
        simp only [List.lookup, hbeq] at hk
        rw [if_neg h]
        simp only [List.lookup, hbeq]
        exact ih hk

/-- Claim C9: `SetPreviewText` on an unknown session identifier returns the
generic failure and changes nothing; on a session whose active format is not
CC it returns the distinguished not-supported result and changes nothing; on
a CC session it succeeds and the session's preview text becomes the supplied
text. -/
theorem setPreviewText_result_cases (impl : ImplState) (sessionId : Nat) (text : String) :
    (impl.sessions.lookup sessionId = none →
      SetPreviewText impl sessionId text = (impl, [], Hresult.ERROR_GENERAL)) ∧
    (∀ ses, impl.sessions.lookup sessionId = some ses →
      ses.core.sessionType ≠ SessionType.CC →
      SetPreviewText impl sessionId text = (impl, [], Hresult.ERROR_NOT_SUPPORTED)) ∧
    (∀ ses, impl.sessions.lookup sessionId = some ses →
      ses.core.sessionType = SessionType.CC →
      (SetPreviewText impl sessionId text).2.2 = Hresult.ERROR_NONE ∧
      ((SetPreviewText impl sessionId text).1.sessions.lookup sessionId).map
        (fun s => s.core.previewText) = some text) := by
  refine ⟨fun hn => ?_, fun ses hs hne => ?_, fun ses hs hcc => ?_⟩
  · simp [SetPreviewText, hn]
  · simp [SetPreviewText, hs, hne]
  · have hup := lookup_updateAssoc impl.sessions sessionId
      { ses with core := (setTextForClosedCaptionPreview ses.core text).1 }
      (by simp [hs])
    constructor
    · simp [SetPreviewText, hs, hcc]
    · simp only [SetPreviewText, hs, hcc, if_pos]
      simp only [hup, Option.map_some]
      cases hd : ses.core.decoder <;>
        simp [setTextForClosedCaptionPreview, hd, hcc]

/-- Fixture: a registry with a CC session under id 1 and a TTML session
under id 2. -/
def implFix : ImplState :=
  ⟨[(1, ⟨"d0", true, { initialSession with sessionType := .CC }⟩),
    (2, ⟨"d1", true, { initialSession with sessionType := .TTML }⟩)], 2⟩

/-- Fixture: the CC session stored in `implFix`. -/
def sesCC : RenderSessionState := ⟨"d0", true, { initialSession with sessionType := .CC }⟩

/-- Fixture: the TTML session stored in `implFix`. -/
def sesTtml : RenderSessionState := ⟨"d1", true, { initialSession with sessionType := .TTML }⟩

/-- Witness for `setPreviewText_result_cases` on a concrete two-session
registry: unknown id 9 fails, the TTML session 2 is not supported, the CC
session 1 succeeds and stores the text. -/
theorem setPreviewText_result_cases_witness :
    SetPreviewText implFix 9 "Hi" = (implFix, [], Hresult.ERROR_GENERAL) ∧
    SetPreviewText implFix 2 "Hi" = (implFix, [], Hresult.ERROR_NOT_SUPPORTED) ∧
    (SetPreviewText implFix 1 "Hi").2.2 = Hresult.ERROR_NONE ∧
    ((SetPreviewText implFix 1 "Hi").1.sessions.lookup 1).map
      (fun s => s.core.previewText) = some "Hi" :=
  ⟨(setPreviewText_result_cases implFix 9 "Hi").1 rfl,
    (setPreviewText_result_cases implFix 2 "Hi").2.1 sesTtml rfl (by decide),
    ((setPreviewText_result_cases implFix 1 "Hi").2.2 sesCC rfl rfl).1,
    ((setPreviewText_result_cases implFix 1 "Hi").2.2 sesCC rfl rfl).2⟩

/-- Claim C10: `OpenSession` with an empty display name fails without
creating a session; with a display name for which a session already exists
it does not create a new session — it returns the existing session's
identifier, calls `start()` on it (a guarded no-op when already started),
and leaves the session count and the identifier counter unchanged; a fresh
identifier `mSessionNumber + 1` is allocated only for a display name with no
existing session, and the new started session is appended under it. -/
theorem openSession_cases (impl : ImplState) (displayName : String) :
    (displayName = "" → OpenSession impl displayName = (impl, Hresult.ERROR_GENERAL, none)) ∧
    (∀ k ses, displayName ≠ "" →
      impl.sessions.find? (fun kv => kv.2.displayName == displayName) = some (k, ses) →
      OpenSession impl displayName =
        ({ impl with sessions := updateAssoc impl.sessions k (startSession ses) },
          Hresult.ERROR_NONE, some k) ∧
      (updateAssoc impl.sessions k (startSession ses)).length = impl.sessions.length ∧
      (OpenSession impl displayName).1.sessionNumber = impl.sessionNumber) ∧
    (∀ s : RenderSessionState, s.started = true → startSession s = s) ∧
    (displayName ≠ "" →
      impl.sessions.find? (fun kv => kv.2.displayName == displayName) = none →
      OpenSession impl displayName =
        ({ sessions := impl.sessions ++
            [(impl.sessionNumber + 1, startSession (freshRenderSession displayName))],
           sessionNumber := impl.sessionNumber + 1 },
          Hresult.ERROR_NONE, some (impl.sessionNumber + 1))) := by
  refine ⟨fun he => ?_, fun k ses hne hf => ?_, fun s hs => ?_, fun hne hf => ?_⟩
  · simp [OpenSession, he]
  · refine ⟨by simp [OpenSession, hne, hf], by simp [updateAssoc], ?_⟩
    simp [OpenSession, hne, hf]
  · simp [startSession, hs]
  · simp [OpenSession, hne, hf]

/-- Witness for `openSession_cases` on a concrete registry holding one
started session named `disp0` with id 1. -/
theorem openSession_cases_witness :
    OpenSession ⟨[(1, ⟨"disp0", true, initialSession⟩)], 1⟩ "" =
      (⟨[(1, ⟨"disp0", true, initialSession⟩)], 1⟩, Hresult.ERROR_GENERAL, none) ∧
    OpenSession ⟨[(1, ⟨"disp0", true, initialSession⟩)], 1⟩ "disp0" =
      (⟨updateAssoc [(1, ⟨"disp0", true, initialSession⟩)] 1
          (startSession ⟨"disp0", true, initialSession⟩), 1⟩,
        Hresult.ERROR_NONE, some 1) ∧
    startSession ⟨"disp0", true, initialSession⟩ = ⟨"disp0", true, initialSession⟩ ∧
    OpenSession ⟨[(1, ⟨"disp0", true, initialSession⟩)], 1⟩ "disp1" =
      (⟨[(1, ⟨"disp0", true, initialSession⟩),
          (2, startSession (freshRenderSession "disp1"))], 2⟩,
        Hresult.ERROR_NONE, some 2) :=
  ⟨(openSession_cases ⟨[(1, ⟨"disp0", true, initialSession⟩)], 1⟩ "").1 rfl,
    ((openSession_cases ⟨[(1, ⟨"disp0", true, initialSession⟩)], 1⟩ "disp0").2.1
      1 ⟨"disp0", true, initialSession⟩ (by decide) rfl).1,
    (openSession_cases ⟨[(1, ⟨"disp0", true, initialSession⟩)], 1⟩ "disp0").2.2.1
      ⟨"disp0", true, initialSession⟩ rfl,
    (openSession_cases ⟨[(1, ⟨"disp0", true, initialSession⟩)], 1⟩ "disp1").2.2.2
      (by decide) rfl⟩

end TextTrack
